import Mathlib

/-!
Verification of the `asr` transcription service (`src/asr/app.py`).

The service is a FastAPI app with two endpoints:
  * `GET /health`: returns a static record built from process-start configuration;
  * `POST /transcribe`: validates a non-empty body, writes it to a scoped
    temporary file, acquires a permit from an `anyio.Semaphore` of capacity
    `MAX_TRANSCRIBE_WORKERS`, runs the external whisper model in a worker
    thread, releases the permit, joins and trims the returned segments, and
    responds with text, detected language and rounded elapsed seconds.

We embed the handler as a pure function from its inputs (request body, query
parameters, an oracle standing for the external model, a temp-file path and
two clock samples) to an event trace plus a response.  The admission gate is
embedded separately as a small-step transition system whose states count
waiting and running requests together with the semaphore value.  The
environment-variable parsing at module scope (`MAX_TRANSCRIBE_WORKERS`,
`BEAM_SIZE`) is embedded over a model of Python's `int()` literal parsing.
-/

/-- ASCII whitespace accepted by Python's `int()` / `str.strip()`. -/
def isPyWs (c : Char) : Bool :=
  c == ' ' || c == '\t' || c == '\n' || c == '\r' || c == '\x0b' || c == '\x0c'

/-- Digit groups of a Python integer literal: digits with single interior
underscores; an underscore must sit between two digits. -/
def parseDigitsAux : List Char → Nat → Option Nat
  | [], acc => some acc
  | '_' :: c :: rest, acc =>
      if c.isDigit then parseDigitsAux (c :: rest) acc else none
  | ['_'], _ => none
  | c :: rest, acc =>
      if c.isDigit then parseDigitsAux rest (acc * 10 + (c.toNat - '0'.toNat)) else none

/-- A nonempty digit run (with interior underscores) starting with a digit. -/
def parseDigits : List Char → Option Nat
  | [] => none
  | c :: rest =>
      if c.isDigit then parseDigitsAux rest (c.toNat - '0'.toNat) else none

/-- Strip leading and trailing whitespace, as `int()` does before parsing. -/
def pyStrip (s : List Char) : List Char :=
  ((s.dropWhile isPyWs).reverse.dropWhile isPyWs).reverse

/-- Python's `int(s)` on a string: `some n` when it returns `n`, `none` when it
raises `ValueError`.  Whitespace is stripped, an optional sign is accepted,
then a digit run with single interior underscores. -/
def pyIntOfString (s : String) : Option Int :=
  match pyStrip s.data with
  | '+' :: rest => (parseDigits rest).map (fun n => (n : Int))
  | '-' :: rest => (parseDigits rest).map (fun n => -(n : Int))
  | l => (parseDigits l).map (fun n => (n : Int))

/-- Module-scope computation of `BEAM_SIZE` (app.py lines 15-20):
`BEAM_SIZE_RAW = os.getenv("BEAM_SIZE")`, then
`try: BEAM_SIZE = int(BEAM_SIZE_RAW) if BEAM_SIZE_RAW else None
 except ValueError: BEAM_SIZE = None`.
`raw = none` models an unset variable; an empty string is falsy in Python, so
it also yields `none`; a `ValueError` from `int` is caught and yields `none`. -/
def BEAM_SIZE (raw : Option String) : Option Int :=
  match raw with
  | none => none
  | some s =>
      if s = "" then none
      else
        match pyIntOfString s with
        | some n => some n
        | none => none

/-- Module-scope computation of `MAX_TRANSCRIBE_WORKERS` (app.py line 14):
`int(os.getenv("MAX_TRANSCRIBE_WORKERS", "1"))`.  There is no try/except: a
`ValueError` from `int` propagates and aborts module import, which we model as
`Except.error` carrying the offending string. -/
def MAX_TRANSCRIBE_WORKERS (raw : Option String) : Except String Int :=
  match pyIntOfString (raw.getD "1") with
  | some n => Except.ok n
  | none => Except.error ("invalid literal for int() with base 10: " ++ raw.getD "1")

/-- Process-start configuration, read once from the environment
(app.py lines 11-20). -/
structure Config where
  modelName : String
  device : String
  computeType : String
  beamSize : Option Int
deriving DecidableEq

/-- Response of `GET /health` (app.py lines 37-43). -/
structure HealthResponse where
  ok : Bool
  model : String
  device : String
  compute_type : String
deriving DecidableEq

/-- The `health` endpoint (app.py lines 36-43): builds the record from the
module-scope configuration constants and reads nothing else. -/
def health (cfg : Config) : HealthResponse :=
  { ok := true
    model := cfg.modelName
    device := cfg.device
    compute_type := cfg.computeType }

/-- State of the admission gate as seen by the handler: number of requests
waiting on the semaphore, number currently running the model call, and the
current semaphore value.  The handler mutates no other process-wide state. -/
structure GateState where
  waiting : Nat
  running : Nat
  sem : Nat
deriving DecidableEq

/-- Embedding of `health` as a handler over the mutable process state: its body
(app.py lines 37-43) reads only module-scope constants, so the gate state is
returned unchanged. -/
def healthHandler (cfg : Config) (st : GateState) : HealthResponse × GateState :=
  (health cfg, st)

/-- A model-produced transcript span; the handler reads only its `text`
attribute (app.py line 68). -/
structure Segment where
  text : String
deriving DecidableEq

/-- Model metadata; the handler reads only `info.language` (app.py line 72). -/
structure TranscribeInfo where
  language : String
deriving DecidableEq

/-- Arguments the service passes to `model.transcribe`
(app.py lines 26-33, `_run_transcribe`). -/
structure ModelArgs where
  path : String
  language : Option String
  task : String
  vad_filter : Bool
  beamSize : Option Int
deriving DecidableEq

/-- Python `a or b` for an optional string `a` and string default `b`:
`None` and `""` are falsy. -/
def pyOr (a : Option String) (b : String) : String :=
  match a with
  | none => b
  | some s => if s = "" then b else s

/-- Python `a or None` for an optional string: `""` collapses to `None`. -/
def pyOrNone (a : Option String) : Option String :=
  match a with
  | none => none
  | some s => if s = "" then none else s

/-- Embeds `_run_transcribe` (app.py lines 26-33) as the argument record it hands to
the external model: `language=language or None`, `task=task or "transcribe"`,
`vad_filter=True`, `beam_size=BEAM_SIZE`. -/
def runTranscribeArgs (cfg : Config) (path : String) (language : Option String)
    (task : String) : ModelArgs :=
  { path := path
    language := pyOrNone language
    task := if task = "" then "transcribe" else task
    vad_filter := true
    beamSize := cfg.beamSize }

/-- The arguments a request with query parameters `qLanguage`, `qTask` causes
to reach the model: the handler computes
`language = request.query_params.get("language") or None` and
`task = request.query_params.get("task") or "transcribe"` (app.py lines 53-54)
and passes them to `_run_transcribe`. -/
def requestArgs (cfg : Config) (tmpPath : String) (qLanguage qTask : Option String) :
    ModelArgs :=
  runTranscribeArgs cfg tmpPath (pyOrNone qLanguage) (pyOr qTask "transcribe")

/-- Observable events of one `POST /transcribe` request, in program order. -/
inductive Event where
  | tmpCreate (path : String)
  | tmpWrite (path : String) (content : List UInt8)
  | acquire
  | modelEnter (args : ModelArgs)
  | modelExit
  | modelRaise (e : String)
  | release
  | postProcess
  | tmpDelete (path : String)
deriving DecidableEq

def isAcquire : Event → Bool
  | Event.acquire => true
  | _ => false

def isRelease : Event → Bool
  | Event.release => true
  | _ => false

def isTmpCreate : Event → Bool
  | Event.tmpCreate _ => true
  | _ => false

def isTmpWrite : Event → Bool
  | Event.tmpWrite _ _ => true
  | _ => false

def isTmpDelete : Event → Bool
  | Event.tmpDelete _ => true
  | _ => false

/-- Python `round(q, 3)` tie-to-even rounding of the integer `q * 1000`. -/
def pyRoundInt (q : ℚ) : ℤ :=
  if q - ⌊q⌋ < 1 / 2 then ⌊q⌋
  else if 1 / 2 < q - ⌊q⌋ then ⌊q⌋ + 1
  else if ⌊q⌋ % 2 = 0 then ⌊q⌋ else ⌊q⌋ + 1

/-- Python `round(x, 3)` (app.py line 73): round to the nearest thousandth,
ties to even. -/
def round3 (q : ℚ) : ℚ :=
  (pyRoundInt (q * 1000) : ℚ) / 1000

/-- Successful JSON body of `POST /transcribe` (app.py lines 70-74). -/
structure TranscribeOk where
  text : String
  language : String
  duration_sec : ℚ
deriving DecidableEq

/-- Outcome of one `POST /transcribe` request: the 200 JSON body, the 400
`HTTPException` with its detail string, or a propagated exception that FastAPI
surfaces as a 500. -/
inductive TResponse where
  | ok (r : TranscribeOk)
  | clientError (status : Nat) (detail : String)
  | internalError (e : String)
deriving DecidableEq

def TResponse.text? : TResponse → Option String
  | TResponse.ok r => some r.text
  | _ => none

def TResponse.language? : TResponse → Option String
  | TResponse.ok r => some r.language
  | _ => none

def TResponse.durationSec? : TResponse → Option ℚ
  | TResponse.ok r => some r.duration_sec
  | _ => none

/-- The `POST /transcribe` handler (app.py lines 46-74).  `oracle` stands for
the external `model.transcribe` call: `Except.ok` is a normal return of the
segment list and info, `Except.error` a raised exception.  `t0` and `t1` are
the two `time.time()` samples (line 52 and line 73).  The result is the event
trace of the request and its response.

Control flow of the source: an empty body raises the 400 `HTTPException`
before anything else; otherwise the scoped temporary file is created and the
body written to it, the semaphore permit is acquired, the model runs in a
worker thread, and then either (normal return) the `async with` exits
releasing the permit, the segment texts are joined and stripped, the file
scope exits deleting the file and the JSON body is returned, or (raise) the
`async with` exit releases the permit, the file scope exit deletes the file,
and the exception propagates. -/
def transcribe (cfg : Config)
    (oracle : ModelArgs → Except String (List Segment × TranscribeInfo))
    (body : List UInt8) (qLanguage qTask : Option String)
    (tmpPath : String) (t0 t1 : ℚ) : List Event × TResponse :=
  if body = [] then
    ([], TResponse.clientError 400 "empty body")
  else
    match oracle (requestArgs cfg tmpPath qLanguage qTask) with
    | Except.error e =>
        ([Event.tmpCreate tmpPath, Event.tmpWrite tmpPath body, Event.acquire,
          Event.modelEnter (requestArgs cfg tmpPath qLanguage qTask),
          Event.modelRaise e, Event.release, Event.tmpDelete tmpPath],
         TResponse.internalError e)
    | Except.ok (segs, info) =>
        ([Event.tmpCreate tmpPath, Event.tmpWrite tmpPath body, Event.acquire,
          Event.modelEnter (requestArgs cfg tmpPath qLanguage qTask),
          Event.modelExit, Event.release, Event.postProcess,
          Event.tmpDelete tmpPath],
         TResponse.ok
           { text := (String.join (segs.map Segment.text)).trim
             language := info.language
             duration_sec := round3 (t1 - t0) })

/-- Effect of one event on the set of live temporary files. -/
def applyFs (fs : List String) : Event → List String
  | Event.tmpCreate p => p :: fs
  | Event.tmpDelete p => fs.erase p
  | _ => fs

/-- Live temporary files after a trace runs against an initial file set. -/
def filesAfter (tr : List Event) (fs : List String) : List String :=
  tr.foldl applyFs fs

/-- One step of the admission gate.  `arrive`: a validated request reaches
`async with transcribe_limiter` (app.py line 60).  `acquire`: the semaphore
hands a waiting request a permit, which requires a positive semaphore value,
and the request enters the model call.  `finishOk` / `finishRaise`: the model
call returns or raises, and in both cases the `async with` exit returns the
permit to the semaphore (lines 60-66). -/
inductive GateStep : GateState → GateState → Prop where
  | arrive (w r s : Nat) : GateStep ⟨w, r, s⟩ ⟨w + 1, r, s⟩
  | acquire (w r s : Nat) : GateStep ⟨w + 1, r, s + 1⟩ ⟨w, r + 1, s⟩
  | finishOk (w r s : Nat) : GateStep ⟨w, r + 1, s⟩ ⟨w, r, s + 1⟩
  | finishRaise (w r s : Nat) : GateStep ⟨w, r + 1, s⟩ ⟨w, r, s + 1⟩

/-- Initial gate state: `transcribe_limiter = anyio.Semaphore(cap)` with no
requests in flight (app.py line 23). -/
def initGate (cap : Nat) : GateState :=
  ⟨0, 0, cap⟩

/-- States the gate can reach from startup with capacity `cap`. -/
def GateReachable (cap : Nat) (st : GateState) : Prop :=
  Relation.ReflTransGen GateStep (initGate cap) st

/-- In every reachable gate state, running requests and free permits
partition the capacity. -/
lemma gate_running_add_sem (cap : Nat) (st : GateState)
    (h : GateReachable cap st) : st.running + st.sem = cap := by
  induction h with
  | refl => simp [initGate]
  | tail _ step ih =>
      cases step <;> simp_all <;> omega

/-- Concrete configuration used by witnesses. -/
def cfg0 : Config :=
  { modelName := "small", device := "cpu", computeType := "int8", beamSize := none }

/-- A stub external model that returns one segment, used by witnesses. -/
def oracle0 : ModelArgs → Except String (List Segment × TranscribeInfo) :=
  fun _ => Except.ok ([⟨" hello "⟩], ⟨"en"⟩)

/-- A stub external model that raises, used by witnesses. -/
def oracleRaise : ModelArgs → Except String (List Segment × TranscribeInfo) :=
  fun _ => Except.error "boom"

/-- Rounding to the nearest thousandth preserves nonnegativity. -/
lemma round3_nonneg (q : ℚ) (h : 0 ≤ q) : 0 ≤ round3 q := by
  have hf : (0 : ℤ) ≤ ⌊q * 1000⌋ := Int.floor_nonneg.mpr (by positivity)
  have hp : (0 : ℤ) ≤ pyRoundInt (q * 1000) := by
    unfold pyRoundInt
    split_ifs <;> omega
  unfold round3
  positivity

/-- C1: in every gate state reachable from startup with capacity
`MAX_TRANSCRIBE_WORKERS = cap`, the number of requests concurrently inside the
external transcription call is at most `cap`: the semaphore admits a request
only by spending one of the `cap` permits, and permits are only created back
by a finishing request. -/
theorem gate_concurrency_bounded (cap : Nat) (st : GateState)
    (h : GateReachable cap st) : st.running ≤ cap := by
  have hinv := gate_running_add_sem cap st h
  omega

theorem gate_concurrency_bounded_witness :
    GateReachable 1 ⟨0, 1, 0⟩ ∧ (GateState.mk 0 1 0).running ≤ 1 := by
  have h1 : GateStep (initGate 1) ⟨1, 0, 1⟩ := GateStep.arrive 0 0 1
  have h2 : GateStep ⟨1, 0, 1⟩ ⟨0, 1, 0⟩ := GateStep.acquire 0 0 0
  have hr : GateReachable 1 ⟨0, 1, 0⟩ :=
    Relation.ReflTransGen.tail (Relation.ReflTransGen.tail Relation.ReflTransGen.refl h1) h2
  exact ⟨hr, gate_concurrency_bounded 1 ⟨0, 1, 0⟩ hr⟩

/-- C2: every request that acquires the permit releases it exactly once, on
both exit paths of the model call — the trace of a non-empty-body request
contains exactly one acquire and exactly one release, with the release after
the acquire, whether the oracle returns normally or raises. -/
theorem permit_released_on_all_paths (cfg : Config)
    (oracle : ModelArgs → Except String (List Segment × TranscribeInfo))
    (body : List UInt8) (qLanguage qTask : Option String) (p : String) (t0 t1 : ℚ)
    (hbody : body ≠ []) :
    ((transcribe cfg oracle body qLanguage qTask p t0 t1).1.countP isAcquire = 1) ∧
    ((transcribe cfg oracle body qLanguage qTask p t0 t1).1.countP isRelease = 1) ∧
    ((transcribe cfg oracle body qLanguage qTask p t0 t1).1[2]? = some Event.acquire) ∧
    ((transcribe cfg oracle body qLanguage qTask p t0 t1).1[5]? = some Event.release) := by
  unfold transcribe
  rcases ho : oracle (requestArgs cfg p qLanguage qTask) with e | ⟨segs, info⟩ <;>
    simp [hbody, ho, isAcquire, isRelease]

theorem permit_released_on_all_paths_witness :
    (([0] : List UInt8) ≠ []) ∧
    (((transcribe cfg0 oracleRaise [0] none none "t.wav" 0 1).1.countP isAcquire = 1) ∧
     ((transcribe cfg0 oracleRaise [0] none none "t.wav" 0 1).1.countP isRelease = 1) ∧
     ((transcribe cfg0 oracleRaise [0] none none "t.wav" 0 1).1[2]? = some Event.acquire) ∧
     ((transcribe cfg0 oracleRaise [0] none none "t.wav" 0 1).1[5]? = some Event.release)) :=
  ⟨by decide,
   permit_released_on_all_paths cfg0 oracleRaise [0] none none "t.wav" 0 1 (by decide)⟩

/-- C3: a request whose body is empty yields the 400 `HTTPException` with the
human-readable detail "empty body" for every configuration, oracle and query
parameters, and its trace is empty: no temporary file is created or written,
the gate is never touched and the model is never entered. -/
theorem empty_body_rejected_before_effects (cfg : Config)
    (oracle : ModelArgs → Except String (List Segment × TranscribeInfo))
    (qLanguage qTask : Option String) (p : String) (t0 t1 : ℚ) :
    transcribe cfg oracle [] qLanguage qTask p t0 t1
      = ([], TResponse.clientError 400 "empty body") := rfl

/-- C4: on a successful request the release event immediately follows the
model-call exit and precedes the post-processing step, and the returned text
is the concatenation of the segment texts in the order produced, with
surrounding whitespace trimmed. -/
theorem release_before_postprocess_and_text_concat (cfg : Config)
    (oracle : ModelArgs → Except String (List Segment × TranscribeInfo))
    (body : List UInt8) (qLanguage qTask : Option String) (p : String) (t0 t1 : ℚ)
    (segs : List Segment) (info : TranscribeInfo)
    (hbody : body ≠ [])
    (ho : oracle (requestArgs cfg p qLanguage qTask) = Except.ok (segs, info)) :
    ((transcribe cfg oracle body qLanguage qTask p t0 t1).1[4]? = some Event.modelExit) ∧
    ((transcribe cfg oracle body qLanguage qTask p t0 t1).1[5]? = some Event.release) ∧
    ((transcribe cfg oracle body qLanguage qTask p t0 t1).1[6]? = some Event.postProcess) ∧
    ((transcribe cfg oracle body qLanguage qTask p t0 t1).2.text?
      = some ((String.join (segs.map Segment.text)).trim)) := by
  unfold transcribe
  simp [hbody, ho, TResponse.text?]

theorem release_before_postprocess_and_text_concat_witness :
    (([0] : List UInt8) ≠ []) ∧
    (((transcribe cfg0 oracle0 [0] none none "t.wav" 0 1).1[4]? = some Event.modelExit) ∧
     ((transcribe cfg0 oracle0 [0] none none "t.wav" 0 1).1[5]? = some Event.release) ∧
     ((transcribe cfg0 oracle0 [0] none none "t.wav" 0 1).1[6]? = some Event.postProcess) ∧
     ((transcribe cfg0 oracle0 [0] none none "t.wav" 0 1).2.text?
       = some ((String.join ([Segment.mk " hello "].map Segment.text)).trim))) :=
  ⟨by decide,
   release_before_postprocess_and_text_concat cfg0 oracle0 [0] none none "t.wav" 0 1
     [Segment.mk " hello "] (TranscribeInfo.mk "en") (by decide) rfl⟩

/-- C5 counterexample: `duration_sec` does not equal the elapsed time in
general, because line 73 rounds it to three decimals.  With clock samples
`t0 = 0` and `t1 = 1/3` the elapsed time is `1/3` but the response carries
`333/1000`. -/
theorem duration_not_exact_elapsed_cex :
    ((transcribe cfg0 oracle0 [0] none none "t.wav" 0 (1 / 3)).2.durationSec?
      = some ((333 : ℚ) / 1000)) ∧
    ((333 : ℚ) / 1000 ≠ (1 / 3 : ℚ) - 0) := by
  constructor
  · simp [transcribe, oracle0, TResponse.durationSec?]
    norm_num [round3, pyRoundInt]
  · norm_num

/-- C5 (amended): on a successful request with a non-empty body, assuming the
second clock sample is not before the first, the response's `duration_sec`
equals the elapsed time between the two samples rounded to three decimal
places and is therefore ≥ 0, and the response's `language` is exactly the
language the model reports, hence non-empty whenever the model reports a
non-empty one. -/
theorem duration_rounded_nonneg_language_passthrough (cfg : Config)
    (oracle : ModelArgs → Except String (List Segment × TranscribeInfo))
    (body : List UInt8) (qLanguage qTask : Option String) (p : String) (t0 t1 : ℚ)
    (segs : List Segment) (info : TranscribeInfo)
    (hbody : body ≠ [])
    (ho : oracle (requestArgs cfg p qLanguage qTask) = Except.ok (segs, info))
    (ht : t0 ≤ t1) :
    ((transcribe cfg oracle body qLanguage qTask p t0 t1).2.durationSec?
      = some (round3 (t1 - t0))) ∧
    (0 ≤ round3 (t1 - t0)) ∧
    ((transcribe cfg oracle body qLanguage qTask p t0 t1).2.language?
      = some info.language) := by
  refine ⟨?_, round3_nonneg (t1 - t0) (by linarith), ?_⟩ <;>
  · unfold transcribe
    simp [hbody, ho, TResponse.durationSec?, TResponse.language?]

theorem duration_rounded_nonneg_language_passthrough_witness :
    (([0] : List UInt8) ≠ []) ∧ ((0 : ℚ) ≤ 1) ∧
    (((transcribe cfg0 oracle0 [0] none none "t.wav" 0 1).2.durationSec?
       = some (round3 (1 - 0))) ∧
     (0 ≤ round3 ((1 : ℚ) - 0)) ∧
     ((transcribe cfg0 oracle0 [0] none none "t.wav" 0 1).2.language?
       = some (TranscribeInfo.mk "en").language)) :=
  ⟨by decide, by norm_num,
   duration_rounded_nonneg_language_passthrough cfg0 oracle0 [0] none none "t.wav" 0 1
     [Segment.mk " hello "] (TranscribeInfo.mk "en") (by decide) rfl (by norm_num)⟩

/-- C6: every non-empty-body request creates exactly one temporary file, as
its first event, immediately writes the request body to it, and deletes it on
every exit path — whether the oracle returns or raises, the trace contains
exactly one delete of that same path, and replaying the trace against any
initial file set leaves it unchanged, so no persistent state survives the
request. -/
theorem tempfile_created_once_and_always_deleted (cfg : Config)
    (oracle : ModelArgs → Except String (List Segment × TranscribeInfo))
    (body : List UInt8) (qLanguage qTask : Option String) (p : String) (t0 t1 : ℚ)
    (hbody : body ≠ []) :
    ((transcribe cfg oracle body qLanguage qTask p t0 t1).1.countP isTmpCreate = 1) ∧
    ((transcribe cfg oracle body qLanguage qTask p t0 t1).1[0]? = some (Event.tmpCreate p)) ∧
    ((transcribe cfg oracle body qLanguage qTask p t0 t1).1[1]? = some (Event.tmpWrite p body)) ∧
    ((transcribe cfg oracle body qLanguage qTask p t0 t1).1.countP isTmpDelete = 1) ∧
    (∃ k : Nat, (transcribe cfg oracle body qLanguage qTask p t0 t1).1[k]?
      = some (Event.tmpDelete p)) ∧
    (∀ fs, filesAfter (transcribe cfg oracle body qLanguage qTask p t0 t1).1 fs = fs) := by
  unfold transcribe
  rcases ho : oracle (requestArgs cfg p qLanguage qTask) with e | ⟨segs, info⟩ <;>
    simp [hbody, ho, isTmpCreate, isTmpDelete, filesAfter, applyFs]
  · exact ⟨6, rfl⟩
  · exact ⟨7, rfl⟩

theorem tempfile_created_once_and_always_deleted_witness :
    (([0] : List UInt8) ≠ []) ∧
    (((transcribe cfg0 oracleRaise [0] none none "t.wav" 0 1).1.countP isTmpCreate = 1) ∧
     ((transcribe cfg0 oracleRaise [0] none none "t.wav" 0 1).1[0]?
       = some (Event.tmpCreate "t.wav")) ∧
     ((transcribe cfg0 oracleRaise [0] none none "t.wav" 0 1).1[1]?
       = some (Event.tmpWrite "t.wav" [0])) ∧
     ((transcribe cfg0 oracleRaise [0] none none "t.wav" 0 1).1.countP isTmpDelete = 1) ∧
     (∃ k : Nat, (transcribe cfg0 oracleRaise [0] none none "t.wav" 0 1).1[k]?
       = some (Event.tmpDelete "t.wav")) ∧
     (∀ fs, filesAfter (transcribe cfg0 oracleRaise [0] none none "t.wav" 0 1).1 fs = fs)) :=
  ⟨by decide,
   tempfile_created_once_and_always_deleted cfg0 oracleRaise [0] none none "t.wav" 0 1
     (by decide)⟩

/-- C7: the health endpoint returns exactly the record
`{ok := true, model, device, compute_type}` built from the process-start
configuration, leaves the process state untouched, and — being a total
function of the configuration alone — has no failure modes and cannot depend
on request history. -/
theorem health_static_record (cfg : Config) (st : GateState) :
    healthHandler cfg st
      = (⟨true, cfg.modelName, cfg.device, cfg.computeType⟩, st) := rfl

/-- C8: the beam-size configuration never aborts startup: an unset variable
stays unset, a value that Python's `int` parses is used as-is, and any value
`int` rejects silently falls back to unset (the `ValueError` is caught). -/
theorem beam_size_never_fails_startup :
    (BEAM_SIZE none = none) ∧
    (∀ s n, pyIntOfString s = some n → BEAM_SIZE (some s) = some n) ∧
    (∀ s, pyIntOfString s = none → BEAM_SIZE (some s) = none) := by
  refine ⟨rfl, ?_, ?_⟩
  · intro s n hs
    by_cases he : s = ""
    · subst he
      simp [pyIntOfString, pyStrip, parseDigits] at hs
    · simp [BEAM_SIZE, he, hs]
  · intro s hs
    by_cases he : s = ""
    · simp [BEAM_SIZE, he]
    · simp [BEAM_SIZE, he, hs]

theorem beam_size_never_fails_startup_witness :
    (pyIntOfString "7" = some 7) ∧ (BEAM_SIZE (some "7") = some 7) ∧
    (pyIntOfString "abc" = none) ∧ (BEAM_SIZE (some "abc") = none) :=
  ⟨by decide, beam_size_never_fails_startup.2.1 "7" 7 (by decide),
   by decide, beam_size_never_fails_startup.2.2 "abc" (by decide)⟩

/-- C9: an empty-string `language` query parameter leads to the identical
request outcome as an absent one (the whole trace and response coincide, and
the argument record carries no language hint), and an empty-string or absent
`task` query parameter reaches the model as the value "transcribe". -/
theorem empty_query_params_defaults (cfg : Config)
    (oracle : ModelArgs → Except String (List Segment × TranscribeInfo))
    (body : List UInt8) (qLanguage qTask : Option String) (p : String) (t0 t1 : ℚ) :
    (transcribe cfg oracle body (some "") qTask p t0 t1
      = transcribe cfg oracle body none qTask p t0 t1) ∧
    ((requestArgs cfg p (some "") qTask).language = none) ∧
    ((requestArgs cfg p qLanguage (some "")).task = "transcribe") ∧
    ((requestArgs cfg p qLanguage none).task = "transcribe") := by
  refine ⟨?_, ?_, ?_, ?_⟩
  · unfold transcribe
    rw [show requestArgs cfg p (some "") qTask = requestArgs cfg p none qTask from by
      simp [requestArgs, pyOrNone]]
  · simp [requestArgs, runTranscribeArgs, pyOrNone]
  · simp [requestArgs, runTranscribeArgs, pyOr]
  · simp [requestArgs, runTranscribeArgs, pyOr]

/-- C10: the worker-count configuration has no fallback: when unset it
defaults to 1, a parseable value is used, and a value Python's `int` rejects
makes module import raise `ValueError`, aborting startup — in contrast with
`BEAM_SIZE`, which swallows the same parse failure. -/
theorem max_workers_parse_strict :
    (MAX_TRANSCRIBE_WORKERS none = Except.ok 1) ∧
    (∀ s n, pyIntOfString s = some n →
      MAX_TRANSCRIBE_WORKERS (some s) = Except.ok n) ∧
    (∀ s, pyIntOfString s = none →
      ∃ e, MAX_TRANSCRIBE_WORKERS (some s) = Except.error e) ∧
    (∀ s, pyIntOfString s = none → BEAM_SIZE (some s) = none) := by
  refine ⟨rfl, ?_, ?_, ?_⟩
  · intro s n hs
    simp [MAX_TRANSCRIBE_WORKERS, hs]
  · intro s hs
    refine ⟨"invalid literal for int() with base 10: " ++ s, ?_⟩
    simp [MAX_TRANSCRIBE_WORKERS, hs]
  · intro s hs
    by_cases he : s = ""
    · simp [BEAM_SIZE, he]
    · simp [BEAM_SIZE, he, hs]

theorem max_workers_parse_strict_witness :
    (MAX_TRANSCRIBE_WORKERS none = Except.ok 1) ∧
    (pyIntOfString "3" = some 3) ∧
    (MAX_TRANSCRIBE_WORKERS (some "3") = Except.ok 3) ∧
    (pyIntOfString "abc" = none) ∧
    (∃ e, MAX_TRANSCRIBE_WORKERS (some "abc") = Except.error e) :=
  ⟨max_workers_parse_strict.1, by decide,
   max_workers_parse_strict.2.1 "3" 3 (by decide),
   by decide, max_workers_parse_strict.2.2.1 "abc" (by decide)⟩
